import Mathlib

/-!
Verification of the trainml-cli job layer (`trainml/jobs.py`) against its
specification.  The Python source is shallowly embedded: Python dicts whose
values are JSON-like data become association lists over an inductive `PyObj`
value type, Python truthiness becomes `PyObj.truthy`, exceptions become
`Except`/explicit result constructors, and the asynchronous polling loop of
`Job.wait_for` becomes a fuel-indexed recursion over a trace of refresh
outcomes supplied as a function from poll index to outcome.
-/

namespace TrainML

/-- A Python value, as needed by `jobs.py`: `None`, strings, integers, lists
and string-keyed dicts (association lists; keys are unique by construction). -/
inductive PyObj where
  | none
  | str (s : String)
  | num (n : Int)
  | list (items : List PyObj)
  | dict (entries : List (String × PyObj))

/-- Python truthiness for the values above: `None`, `""`, `0`, `[]` and
`{}` (written here as an empty entry list) are falsy, everything else truthy. -/
def PyObj.truthy : PyObj → Bool
  | .none => false
  | .str s => !(s == "")
  | .num n => !(n == 0)
  | .list items => !items.isEmpty
  | .dict entries => !entries.isEmpty

/-- A Python dict with string keys (the shape of every dict in `jobs.py`). -/
abbrev PyDict := List (String × PyObj)

/-- `k in d.keys()`. -/
def PyDict.hasKey (d : PyDict) (k : String) : Bool :=
  d.any (fun e => e.1 == k)

/-- `d.get(k)`: value of the first entry for `k`, or `None` when absent
(keys are unique in every dict built by the source, so first = only). -/
def PyDict.get (d : PyDict) (k : String) : PyObj :=
  match d.find? (fun e => e.1 == k) with
  | some e => e.2
  | Option.none => PyObj.none

/-- `d[k] = v`: replace the entry for `k`, or append it when absent. -/
def PyDict.set (d : PyDict) (k : String) (v : PyObj) : PyDict :=
  if d.hasKey k then d.map (fun e => if e.1 == k then (k, v) else e)
  else d ++ [(k, v)]

/-- `v == "s"` in Python: true exactly when `v` is the string `s`. -/
def PyObj.isStr (v : PyObj) (s : String) : Bool :=
  match v with
  | .str t => t == s
  | _ => false

/-- The exceptions raised by the embedded fragment of `jobs.py`:
`SpecificationError(field, message)` and the `TypeError` Python raises when
iterating a non-iterable value (here: anything but a list; the case the
source can actually hit is iterating `None`). -/
inductive PyError where
  | specificationError (field : String) (message : String)
  | typeError (message : String)

/-! ### `Jobs.create`: config assembly and payload filtering (jobs.py 146-170) -/

/-- The `config` dict literal of `Jobs.create` (jobs.py 146-161), with each
field value abstracted as a `PyObj` (`resources` is the already-built
sub-dict, `source_job_uuid` is `kwargs.get("source_job_uuid")`). -/
def mk_config (name type_ resources worker_count worker_commands environment
    data model vpn source_job_uuid : PyObj) : PyDict :=
  [("name", name), ("type", type_), ("resources", resources),
   ("worker_count", worker_count), ("worker_commands", worker_commands),
   ("environment", environment), ("data", data), ("model", model),
   ("vpn", vpn), ("source_job_uuid", source_job_uuid)]

/-- The payload comprehension of `Jobs.create` (jobs.py 162-170): keep a
config entry when its value is truthy, or when its key is `worker_commands`
or `model` and `kwargs.get("source_job_uuid")` is falsy. -/
def build_payload (config : PyDict) (source_job_uuid : PyObj) : PyDict :=
  config.filter (fun e =>
    e.2.truthy ||
      ((e.1 == "worker_commands" || e.1 == "model") && !source_job_uuid.truthy))

/-! ### `_clean_datasets_selection` (jobs.py 17-82) -/

/-- A dataset object from the catalogs (`my_datasets` / `public_datasets`):
only the attributes the resolver reads (`d.id`, `d.name`, `d.provider`). -/
structure CatalogDataset where
  id : String
  name : String
  provider : String

/-- `next((d for d in catalog if d.name == requested_name and d.provider ==
provider), None)`: first catalog entry whose `name` equals the requested
value (a `PyObj`; only a string value can match) and whose provider matches. -/
def find_dataset (catalog : List CatalogDataset) (requested_name : PyObj)
    (provider : String) : Option CatalogDataset :=
  catalog.find? (fun d => requested_name.isStr d.name && d.provider == provider)

/-- Loop body of `_clean_datasets_selection` (jobs.py 22-81) for one requested
dataset dict.  The Python `SpecificationError` messages interpolate the
requested entry (`f"Dataset .. Not Found"`) and quote the allowed values with
Python list syntax; the embedded messages keep the constant part of the text. -/
def _clean_dataset (dataset : PyDict) (provider : String)
    (my_datasets public_datasets : List CatalogDataset) : Except PyError PyDict :=
  if dataset.hasKey "id" then
    .ok [("dataset_uuid", dataset.get "id"), ("type", dataset.get "type")]
  else if dataset.hasKey "dataset_uuid" then
    .ok dataset
  else if dataset.hasKey "name" then
    if (dataset.get "type").isStr "existing" then
      match find_dataset my_datasets (dataset.get "name") provider with
      | some d => .ok [("dataset_uuid", PyObj.str d.id), ("type", dataset.get "type")]
      | Option.none => .error (.specificationError "datasets" "Dataset Not Found")
    else if (dataset.get "type").isStr "public" then
      match find_dataset public_datasets (dataset.get "name") provider with
      | some d => .ok [("dataset_uuid", PyObj.str d.id), ("type", dataset.get "type")]
      | Option.none => .error (.specificationError "datasets" "Dataset Not Found")
    else
      .error (.specificationError "datasets"
        "Invalid dataset specification, type must be in existing,public")
  else
    .error (.specificationError "datasets"
      "Invalid dataset specification, either id or name must be provided")

/-- `_clean_datasets_selection(requested_datasets, provider, my_datasets,
public_datasets)` (jobs.py 17-82).  `requested_datasets` is a Python value:
iterating anything but a list raises a `TypeError` (in the source the
reachable such case is `None`, when `data` has no `datasets` key); each
element must be a dict, since the body calls `.keys()`/`.get` on it. -/
def _clean_datasets_selection (requested_datasets : PyObj) (provider : String)
    (my_datasets public_datasets : List CatalogDataset) :
    Except PyError (List PyDict) :=
  match requested_datasets with
  | .list items =>
      items.mapM (fun d =>
        match d with
        | .dict entries => _clean_dataset entries provider my_datasets public_datasets
        | _ => .error (.typeError "argument is not a dict"))
  | _ => .error (.typeError "object is not iterable")

/-- The dataset-handling step of `Jobs.create` (jobs.py 137-144): when `data`
is truthy, resolve `data.get("datasets")` and store the result back under the
`datasets` key; when `data` is falsy the block is skipped and `data` is left
untouched.  (A truthy non-dict `data` would fail on `.get` in Python; the
embedding reports that as a `TypeError` as well.) -/
def create_data_step (data : PyObj) (provider : String)
    (my_datasets public_datasets : List CatalogDataset) : Except PyError PyObj :=
  if data.truthy then
    match data with
    | .dict entries => do
        let datasets ← _clean_datasets_selection (PyDict.get entries "datasets")
          provider my_datasets public_datasets
        pure (.dict (PyDict.set entries "datasets" (.list (datasets.map PyObj.dict))))
    | _ => .error (.typeError "object has no attribute get")
  else
    .ok data

/-- Spec-side resolver for one requested dataset entry, following the words of
spec section 4.1 step by step: (1) an `id` key maps directly to
`dataset_uuid`/`type`; (2) else a `dataset_uuid` key passes the entry through
unchanged; (3) else `name` with `type == existing` resolves against `mine`
by name and provider, first match wins, zero matches fail with a
specification error naming `datasets`; (4) else `name` with `type == public`
does the same lookup against `public`; (5) else `name` with any other `type`
fails with a specification error describing the allowed type values; (6) else
fail with a specification error. -/
def resolve_dataset_spec (entry : PyDict) (provider : String)
    (mine pub : List CatalogDataset) : Except PyError PyDict :=
  if entry.hasKey "id" then
    .ok [("dataset_uuid", entry.get "id"), ("type", entry.get "type")]
  else if entry.hasKey "dataset_uuid" then
    .ok entry
  else if entry.hasKey "name" then
    if (entry.get "type").isStr "existing" then
      match mine.find? (fun d => (entry.get "name").isStr d.name && d.provider == provider) with
      | some d => .ok [("dataset_uuid", PyObj.str d.id), ("type", entry.get "type")]
      | Option.none => .error (.specificationError "datasets" "Dataset Not Found")
    else if (entry.get "type").isStr "public" then
      match pub.find? (fun d => (entry.get "name").isStr d.name && d.provider == provider) with
      | some d => .ok [("dataset_uuid", PyObj.str d.id), ("type", entry.get "type")]
      | Option.none => .error (.specificationError "datasets" "Dataset Not Found")
    else
      .error (.specificationError "datasets"
        "Invalid dataset specification, type must be in existing,public")
  else
    .error (.specificationError "datasets"
      "Invalid dataset specification, either id or name must be provided")

/-! ### `Job.wait_for` (jobs.py 330-373)

The waiter is asynchronous: each loop iteration sleeps and then calls
`self.refresh()`, whose outcome depends on the remote service.  The embedding
takes a trace `Nat → RefreshEvent` giving the outcome of the `k`-th refresh
call (`k = 0, 1, ...`): a fresh job snapshot, an `ApiError` with an HTTP
status code, or any other exception class (which line 355 does not catch). -/

/-- The fields of a `Job` snapshot that `wait_for` reads (`self.type`,
`self.status`); `refresh` replaces the whole snapshot (jobs.py 267-270). -/
structure JobState where
  type_ : String
  status : String
deriving DecidableEq

/-- Outcome of one `refresh()` call inside the wait loop. -/
inductive RefreshEvent where
  | ok (j : JobState)
  | apiError (code : Nat)
  | otherError
deriving DecidableEq

/-- How a `wait_for` call terminates.  `retNone` is the bare Python `return`
(result `None`), used both on the immediate-success path (line 349) and in
the 404-on-archived handler (line 359); `retSelf` is `return self`
(line 366).  The remaining constructors are the raised exceptions. -/
inductive WaitResult where
  | specError (field : String) (message : String)
  | retNone
  | retSelf (j : JobState)
  | jobFailed (j : JobState)
  | timeoutError (target : String)
  | raisedApi (code : Nat)
  | raisedOther
deriving DecidableEq

/-- Everything observable about one `wait_for` run: how it terminated, how
many `DeprecationWarning`s it emitted, and how many `refresh()` calls it
performed. -/
structure WaitOutput where
  result : WaitResult
  warnings : Nat
  refreshes : Nat
deriving DecidableEq

/-- The success condition of jobs.py 344-348 and 361-365: status equals the
target, or the job type is `headless`/`training`, the target is `finished`
and the status is `stopped`. -/
def successCheck (j : JobState) (target : String) : Bool :=
  j.status == target ||
    ((j.type_ == "headless" || j.type_ == "training") &&
      target == "finished" && j.status == "stopped")

/-- `valid_statuses` (jobs.py 331). -/
def valid_statuses : List String := ["running", "stopped", "finished", "archived"]

/-- `POLL_INTERVAL` (jobs.py 350). -/
def POLL_INTERVAL : Nat := 5

/-- `retry_count = math.ceil(timeout / POLL_INTERVAL)` (jobs.py 351), for a
natural-number timeout. -/
def retry_count (timeout : Nat) : Nat :=
  (timeout + POLL_INTERVAL - 1) / POLL_INTERVAL

/-- The message of the invalid-target `SpecificationError` (jobs.py 334-336);
the Python f-string renders the list with Python repr syntax, the embedding
joins the same statuses with commas. -/
def invalid_status_message (status : String) : String :=
  "Invalid wait_for status " ++ status ++ ".  Valid statuses are: " ++
    String.intercalate ", " valid_statuses

/-- The `while count < retry_count` loop of jobs.py 353-372.  `idx` is the
number of refresh calls already performed, `fuel` the remaining retry budget;
the returned `Nat` is the total number of refresh calls performed when the
loop terminates. -/
def waitLoop (target : String) (trace : Nat → RefreshEvent) :
    Nat → Nat → WaitResult × Nat
  | idx, 0 => (.timeoutError target, idx)
  | idx, fuel + 1 =>
    match trace idx with
    | .apiError code =>
        if target == "archived" && code == 404 then (.retNone, idx + 1)
        else (.raisedApi code, idx + 1)
    | .otherError => (.raisedOther, idx + 1)
    | .ok j =>
        if successCheck j target then (.retSelf j, idx + 1)
        else if j.status == "failed" then (.jobFailed j, idx + 1)
        else waitLoop target trace (idx + 1) fuel

/-- The number of `DeprecationWarning`s emitted by one `wait_for` call
(jobs.py 337-343): one when the job type is `headless` or `training` and the
requested target is `stopped`, zero otherwise. -/
def deprecation_warnings (j : JobState) (target : String) : Nat :=
  if (j.type_ == "headless" || j.type_ == "training") && target == "stopped"
  then 1 else 0

/-- `Job.wait_for(status, timeout)` (jobs.py 330-373): validate the target,
emit the deprecation warning for `stopped` on a training-type job, return
immediately when the success condition already holds, otherwise poll with
budget `retry_count` and raise a timeout error when the budget is exhausted. -/
def wait_for (j : JobState) (target : String) (timeout : Nat)
    (trace : Nat → RefreshEvent) : WaitOutput :=
  if target ∈ valid_statuses then
    if successCheck j target then ⟨.retNone, deprecation_warnings j target, 0⟩
    else
      ⟨(waitLoop target trace 0 (retry_count timeout)).1,
       deprecation_warnings j target,
       (waitLoop target trace 0 (retry_count timeout)).2⟩
  else
    ⟨.specError "status" (invalid_status_message target), 0, 0⟩

/-- A refresh outcome on which the wait loop keeps polling: a snapshot that
neither satisfies the success condition nor has status `failed`. -/
def ContinueEvent (target : String) (e : RefreshEvent) : Prop :=
  ∃ j, e = RefreshEvent.ok j ∧ successCheck j target = false ∧ j.status ≠ "failed"

/-! ### `Job.copy` (jobs.py 304-328) -/

/-- The keyword overrides `Job.copy` reads via `kwargs.get(...)`; a field the
caller did not supply is `PyObj.none`. -/
structure CopyArgs where
  type_ : PyObj
  gpu_type : PyObj
  gpu_count : PyObj
  disk_size : PyObj
  worker_count : PyObj
  worker_commands : PyObj
  environment : PyObj
  data : PyObj
  vpn : PyObj

/-- The argument list of the `self.trainml.jobs.create(...)` call issued by
`Job.copy` (jobs.py 311-326). -/
structure CreateCall where
  name : String
  type_ : PyObj
  gpu_type : PyObj
  gpu_count : PyObj
  disk_size : PyObj
  worker_count : PyObj
  worker_commands : PyObj
  environment : PyObj
  data : PyObj
  vpn : PyObj
  source_job_uuid : String

/-- Python `a or b`: `a` when truthy, else `b`. -/
def pyOr (a b : PyObj) : PyObj :=
  if a.truthy then a else b

/-- The `resources` sub-dict of the source job, as read by `Job.copy`
(`self._job.get("resources").get(...)`, jobs.py 315-319). -/
structure JobResources where
  gpu_type_id : PyObj
  gpu_count : PyObj
  disk_size : PyObj

/-- `Job.copy(name, **kwargs)` (jobs.py 304-328): only jobs whose raw type is
`interactive` or `notebook` (canonical type notebook) may be copied; otherwise
a `SpecificationError` on field `job` is raised before any remote call.  On
success the embedding returns the argument list of the `create` call (the
remote call itself is outside the model): `type`, `gpu_type`, `gpu_count` and
`disk_size` fall back to the source job via Python `or`, the remaining
overrides are passed as given, and `source_job_uuid` is the id of the source job. -/
def Job.copy (jobType : String) (jobId : String) (res : JobResources)
    (name : String) (kw : CopyArgs) : Except PyError CreateCall :=
  if jobType = "interactive" ∨ jobType = "notebook" then
    .ok
      { name := name
        type_ := pyOr kw.type_ (.str jobType)
        gpu_type := pyOr kw.gpu_type res.gpu_type_id
        gpu_count := pyOr kw.gpu_count res.gpu_count
        disk_size := pyOr kw.disk_size res.disk_size
        worker_count := kw.worker_count
        worker_commands := kw.worker_commands
        environment := kw.environment
        data := kw.data
        vpn := kw.vpn
        source_job_uuid := jobId }
  else
    .error (.specificationError "job" "Only notebook job types can be copied")

/-! ### `Job._get_msg_handler` (jobs.py 272-297) -/

/-- One entry of `self._workers` as read by the message handler: only the
`job_worker_uuid` key is consulted. -/
structure WorkerRef where
  job_worker_uuid : String

/-- The `worker_numbers` dict comprehension (jobs.py 273-276) looked up at a
stream id: maps the uuid of a worker to its 1-based position.  In a Python dict
comprehension a later duplicate key overwrites an earlier one, hence the
preference for the recursive (later) match; `start` is the number of workers
already consumed. -/
def worker_number_from (stream : String) : Nat → List WorkerRef → Option Nat
  | _, [] => Option.none
  | start, w :: ws =>
    match worker_number_from stream (start + 1) ws with
    | some n => some n
    | Option.none =>
        if w.job_worker_uuid == stream then some (start + 1) else Option.none

/-- `worker_numbers.get(data.get("stream"))` (jobs.py 281). -/
def worker_number_of (workers : List WorkerRef) (stream : String) : Option Nat :=
  worker_number_from stream 0 workers

/-- An inbound subscription message, after `json.loads`: the fields the
handler reads (`type`, `stream`, `msg`; the `time` field only feeds the
timestamp rendering, which the embedding abstracts). -/
structure SubMsg where
  type_ : String
  stream : String
  msg : String
deriving DecidableEq

/-- What the handler built by `_get_msg_handler` does with one message:
nothing (non-`subscription` kinds), invoke the caller-supplied handler with
the augmented message, or print a timestamped line with or without the
`Worker N - ` part (the timestamp itself is abstracted away). -/
inductive MsgAction where
  | ignored
  | delivered (worker_number : Option Nat) (m : SubMsg)
  | printedWithWorker (worker_number : Option Nat) (text : String)
  | printedPlain (text : String)
deriving DecidableEq

/-- The handler closure of `Job._get_msg_handler` (jobs.py 278-296), applied
to one message.  `workers` is `self._workers` captured at attach time,
`hasHandler` records whether the caller supplied `msg_handler`. -/
def handle_msg (workers : List WorkerRef) (hasHandler : Bool) (m : SubMsg) :
    MsgAction :=
  if m.type_ == "subscription" then
    let wn := worker_number_of workers m.stream
    if hasHandler then .delivered wn m
    else if workers.length > 1 then .printedWithWorker wn m.msg
    else .printedPlain m.msg
  else .ignored

/-! ### Helper lemmas about the wait loop -/

/-- Skipping `k` continue-events advances the loop by `k` refreshes. -/
lemma waitLoop_shift (target : String) (trace : Nat → RefreshEvent) :
    ∀ (k idx fuel : Nat), k ≤ fuel →
      (∀ i, i < k → ContinueEvent target (trace (idx + i))) →
      waitLoop target trace idx fuel = waitLoop target trace (idx + k) (fuel - k)
  | 0, idx, fuel, _, _ => by simp
  | k + 1, idx, 0, hk, _ => by omega
  | k + 1, idx, fuel + 1, hk, hc => by
      obtain ⟨j, hj, hs, hf⟩ := hc 0 (Nat.succ_pos k)
      have hj2 : trace idx = RefreshEvent.ok j := by simpa using hj
      have hstep : waitLoop target trace idx (fuel + 1) =
          waitLoop target trace (idx + 1) fuel := by
        rw [waitLoop, hj2]
        dsimp only
        rw [if_neg (by simp [hs]), if_neg (by simp [hf])]
      rw [hstep]
      have hrec := waitLoop_shift target trace k (idx + 1) fuel
        (Nat.lt_succ_iff.mp hk)
        (fun i hi => by
          have he : idx + 1 + i = idx + (i + 1) := by omega
          rw [he]
          exact hc (i + 1) (Nat.succ_lt_succ hi))
      rw [hrec]
      have e1 : idx + 1 + k = idx + (k + 1) := by omega
      have e2 : fuel - k = fuel + 1 - (k + 1) := by omega
      rw [e1, e2]

/-- The loop returns `None` only out of the 404-on-archived handler. -/
lemma waitLoop_retNone_cases (target : String) (trace : Nat → RefreshEvent) :
    ∀ (fuel idx : Nat), (waitLoop target trace idx fuel).1 = WaitResult.retNone →
      target = "archived" ∧ ∃ k, trace k = RefreshEvent.apiError 404
  | 0, idx, h => by simp [waitLoop] at h
  | fuel + 1, idx, h => by
      rw [waitLoop] at h
      rcases he : trace idx with j | code | _ <;> rw [he] at h <;> dsimp only at h
      · by_cases hsc : successCheck j target = true
        · rw [if_pos hsc] at h
          simp at h
        · rw [if_neg hsc] at h
          by_cases hfl : (j.status == "failed") = true
          · rw [if_pos hfl] at h
            simp at h
          · rw [if_neg hfl] at h
            exact waitLoop_retNone_cases target trace fuel (idx + 1) h
      · by_cases hcond : (target == "archived" && code == 404) = true
        · simp only [Bool.and_eq_true, beq_iff_eq] at hcond
          exact ⟨hcond.1, idx, by rw [he, hcond.2]⟩
        · rw [if_neg hcond] at h
          simp at h
      · simp at h

/-- The loop returns the entity only when the refreshed snapshot satisfies
the success condition. -/
lemma waitLoop_retSelf_success (target : String) (trace : Nat → RefreshEvent) :
    ∀ (fuel idx : Nat) (j2 : JobState),
      (waitLoop target trace idx fuel).1 = WaitResult.retSelf j2 →
      successCheck j2 target = true
  | 0, idx, j2, h => by simp [waitLoop] at h
  | fuel + 1, idx, j2, h => by
      rw [waitLoop] at h
      rcases he : trace idx with j | code | _ <;> rw [he] at h <;> dsimp only at h
      · by_cases hsc : successCheck j target = true
        · rw [if_pos hsc] at h
          simp at h
          rw [← h]
          exact hsc
        · rw [if_neg hsc] at h
          by_cases hfl : (j.status == "failed") = true
          · rw [if_pos hfl] at h
            simp at h
          · rw [if_neg hfl] at h
            exact waitLoop_retSelf_success target trace fuel (idx + 1) j2 h
      · by_cases hcond : (target == "archived" && code == 404) = true
        · rw [if_pos hcond] at h
          simp at h
        · rw [if_neg hcond] at h
          simp at h
      · simp at h

/-! ### Claims -/

/-- C1, counterexample to the claim as stated: a `wait_for` whose target
status already holds at entry terminates without raising, performs no
refresh, and still returns nothing (`return` with no value, jobs.py 349),
although the target (`running`) is not the archived/not-found case.  So a
successful `wait_for` does not always return the entity outside the
archived/gone case. -/
theorem wait_for_immediate_returns_none :
    (wait_for ⟨"notebook", "running"⟩ "running" 300
        (fun _ => RefreshEvent.otherError)).result = WaitResult.retNone ∧
    (wait_for ⟨"notebook", "running"⟩ "running" 300
        (fun _ => RefreshEvent.otherError)).refreshes = 0 ∧
    "running" ≠ "archived" := by
  refine ⟨rfl, rfl, by decide⟩

/-- C1 (amended): whenever `wait_for` terminates without raising, it returns
the refreshed entity — which then satisfies the success condition — except
that it returns nothing when the entity is confirmed archived/gone (a 404
from a refresh while waiting for `archived`) or when the success condition
already held at entry, in which case no refresh happens and nothing is
returned. -/
theorem wait_for_result_amended (j : JobState) (target : String) (timeout : Nat)
    (trace : Nat → RefreshEvent) :
    ((wait_for j target timeout trace).result = WaitResult.retNone →
      successCheck j target = true ∨
        (target = "archived" ∧ ∃ k, trace k = RefreshEvent.apiError 404)) ∧
    (∀ j2, (wait_for j target timeout trace).result = WaitResult.retSelf j2 →
      successCheck j2 target = true) := by
  unfold wait_for
  by_cases hv : target ∈ valid_statuses
  · rw [if_pos hv]
    by_cases hsc : successCheck j target = true
    · rw [if_pos hsc]
      exact ⟨fun _ => Or.inl hsc, fun j2 h => by simp at h⟩
    · rw [if_neg hsc]
      constructor
      · intro h
        exact Or.inr (waitLoop_retNone_cases target trace (retry_count timeout) 0 h)
      · intro j2 h
        exact waitLoop_retSelf_success target trace (retry_count timeout) 0 j2 h
  · rw [if_neg hv]
    exact ⟨fun h => by simp at h, fun j2 h => by simp at h⟩

/-- C1 witness: the amended theorem applied at a concrete run that reaches
the target after one refresh. -/
theorem wait_for_result_amended_witness :
    successCheck ⟨"notebook", "running"⟩ "running" = true :=
  (wait_for_result_amended ⟨"notebook", "new"⟩ "running" 300
      (fun _ => RefreshEvent.ok ⟨"notebook", "running"⟩)).2
    ⟨"notebook", "running"⟩ rfl

/-- C6: a wait target outside `running`/`stopped`/`finished`/`archived`
fails immediately with a `SpecificationError` on field `status` whose message
enumerates the valid target set, with no refresh performed and no warning
emitted. -/
theorem wait_for_invalid_target (j : JobState) (target : String) (timeout : Nat)
    (trace : Nat → RefreshEvent) (h : target ∉ valid_statuses) :
    wait_for j target timeout trace =
      ⟨.specError "status" (invalid_status_message target), 0, 0⟩ := by
  unfold wait_for
  rw [if_neg h]

/-- C6 witness: waiting for the target `ready` (valid for datasets, not for
jobs) fails fast. -/
theorem wait_for_invalid_target_witness :
    wait_for ⟨"notebook", "new"⟩ "ready" 60 (fun _ => RefreshEvent.otherError) =
      ⟨.specError "status" (invalid_status_message "ready"), 0, 0⟩ :=
  wait_for_invalid_target ⟨"notebook", "new"⟩ "ready" 60
    (fun _ => RefreshEvent.otherError) (by decide)

/-- C3: on a job of type `training` or `headless`, `wait_for("finished")`
with observed status `stopped` succeeds immediately — no refresh is
performed and no warning is emitted — and a `wait_for` call on such a job
emits exactly one deprecation warning precisely when the requested target is
the deprecated `stopped`. -/
theorem wait_for_training_alias (tp st target : String) (timeout : Nat)
    (trace : Nat → RefreshEvent) (h : tp = "headless" ∨ tp = "training") :
    wait_for ⟨tp, "stopped"⟩ "finished" timeout trace =
      ⟨WaitResult.retNone, 0, 0⟩ ∧
    (wait_for ⟨tp, st⟩ target timeout trace).warnings =
      (if target = "stopped" then 1 else 0) := by
  constructor
  · have hsc : successCheck ⟨tp, "stopped"⟩ "finished" = true := by
      rcases h with h | h <;> subst h <;> decide
    have hw : deprecation_warnings ⟨tp, "stopped"⟩ "finished" = 0 := by
      rcases h with h | h <;> subst h <;> decide
    unfold wait_for
    rw [if_pos (by decide : "finished" ∈ valid_statuses), if_pos hsc, hw]
  · by_cases hv : target ∈ valid_statuses
    · have hw : deprecation_warnings ⟨tp, st⟩ target =
          (if target = "stopped" then 1 else 0) := by
        by_cases ht : target = "stopped"
        · subst ht
          rcases h with h | h <;> subst h <;> rfl
        · rcases h with h | h <;> subst h <;>
            simp [deprecation_warnings, ht]
      unfold wait_for
      rw [if_pos hv]
      by_cases hsc : successCheck ⟨tp, st⟩ target = true
      · rw [if_pos hsc]
        exact hw
      · rw [if_neg hsc]
        exact hw
    · have ht : target ≠ "stopped" := by
        intro he
        subst he
        exact hv (by decide)
      unfold wait_for
      rw [if_neg hv]
      simp [ht]

/-- C3 witness: a training job already `stopped` waited to `finished`, and a
training job waited to the deprecated `stopped` target. -/
theorem wait_for_training_alias_witness :
    wait_for ⟨"training", "stopped"⟩ "finished" 30
        (fun _ => RefreshEvent.otherError) = ⟨WaitResult.retNone, 0, 0⟩ ∧
    (wait_for ⟨"training", "new"⟩ "stopped" 30
        (fun _ => RefreshEvent.otherError)).warnings =
      (if "stopped" = "stopped" then 1 else 0) :=
  wait_for_training_alias "training" "new" "stopped" 30
    (fun _ => RefreshEvent.otherError) (Or.inr rfl)

/-- C4: if the `k`-th refresh of a wait raises, the error handling is
decided at once (the wait performs exactly `k + 1` refreshes): an `ApiError`
with code 404 while waiting for `archived` terminates the wait as success
returning nothing; any other `ApiError`, and any error of another class,
propagates unchanged with no retry of the failed read. -/
theorem wait_for_refresh_error (j : JobState) (target : String)
    (timeout k : Nat) (trace : Nat → RefreshEvent)
    (hv : target ∈ valid_statuses)
    (him : successCheck j target = false)
    (hk : k < retry_count timeout)
    (hc : ∀ i, i < k → ContinueEvent target (trace i)) :
    (∀ code, trace k = RefreshEvent.apiError code →
      (wait_for j target timeout trace).result =
        (if target = "archived" ∧ code = 404 then WaitResult.retNone
         else WaitResult.raisedApi code) ∧
      (wait_for j target timeout trace).refreshes = k + 1) ∧
    (trace k = RefreshEvent.otherError →
      (wait_for j target timeout trace).result = WaitResult.raisedOther ∧
      (wait_for j target timeout trace).refreshes = k + 1) := by
  obtain ⟨m, hm⟩ : ∃ m, retry_count timeout - k = m + 1 :=
    ⟨retry_count timeout - k - 1, by omega⟩
  have hshift := waitLoop_shift target trace k 0 (retry_count timeout)
    (Nat.le_of_lt hk) (fun i hi => by rw [Nat.zero_add]; exact hc i hi)
  rw [hm, Nat.zero_add] at hshift
  unfold wait_for
  rw [if_pos hv, if_neg (by simp [him]), hshift]
  constructor
  · intro code he
    rw [waitLoop, he]
    dsimp only
    by_cases hcase : target = "archived" ∧ code = 404
    · rw [if_pos (by simp [hcase.1, hcase.2]), if_pos hcase]
      exact ⟨rfl, rfl⟩
    · have hb : ¬((target == "archived" && code == 404) = true) := by
        simp only [Bool.and_eq_true, beq_iff_eq]
        exact fun hx => hcase ⟨hx.1, hx.2⟩
      rw [if_neg hb, if_neg hcase]
      exact ⟨rfl, rfl⟩
  · intro he
    rw [waitLoop, he]
    exact ⟨rfl, rfl⟩

/-- C4 witness: waiting for `archived`, one continue-refresh followed by a
404 refresh terminates the wait as success with no entity after exactly two
refreshes. -/
theorem wait_for_refresh_error_witness :
    (wait_for ⟨"notebook", "running"⟩ "archived" 30
        (fun n => if n = 0 then RefreshEvent.ok ⟨"notebook", "stopping"⟩
                  else RefreshEvent.apiError 404)).result = WaitResult.retNone ∧
    (wait_for ⟨"notebook", "running"⟩ "archived" 30
        (fun n => if n = 0 then RefreshEvent.ok ⟨"notebook", "stopping"⟩
                  else RefreshEvent.apiError 404)).refreshes = 2 := by
  have h := (wait_for_refresh_error ⟨"notebook", "running"⟩ "archived" 30 1
    (fun n => if n = 0 then RefreshEvent.ok ⟨"notebook", "stopping"⟩
              else RefreshEvent.apiError 404)
    (by decide) (by decide) (by decide)
    (fun i hi => by
      have h0 : i = 0 := by omega
      subst h0
      exact ⟨⟨"notebook", "stopping"⟩, rfl, by decide, by decide⟩)).1 404 rfl
  refine ⟨?_, h.2⟩
  rw [h.1, if_pos ⟨rfl, rfl⟩]

/-- C5: a wait whose refreshes all keep polling exhausts a retry budget of
exactly `ceil(timeout / 5)` refresh cycles (`retry_count` is the least `n`
with `timeout ≤ 5 * n`) and then raises a timeout error naming the target. -/
theorem wait_for_retry_budget (j : JobState) (target : String) (timeout : Nat)
    (trace : Nat → RefreshEvent)
    (hv : target ∈ valid_statuses)
    (him : successCheck j target = false)
    (hc : ∀ i, ContinueEvent target (trace i)) :
    (wait_for j target timeout trace).result = WaitResult.timeoutError target ∧
    (wait_for j target timeout trace).refreshes = retry_count timeout ∧
    timeout ≤ POLL_INTERVAL * retry_count timeout ∧
    POLL_INTERVAL * retry_count timeout < timeout + POLL_INTERVAL := by
  have hshift := waitLoop_shift target trace (retry_count timeout) 0
    (retry_count timeout) (le_refl _)
    (fun i _ => by rw [Nat.zero_add]; exact hc i)
  rw [Nat.sub_self] at hshift
  have hrun : waitLoop target trace 0 (retry_count timeout) =
      (WaitResult.timeoutError target, retry_count timeout) := by
    rw [hshift, waitLoop, Nat.zero_add]
  unfold wait_for
  rw [if_pos hv, if_neg (by simp [him])]
  refine ⟨by rw [hrun], by rw [hrun], ?_, ?_⟩
  · unfold retry_count POLL_INTERVAL
    omega
  · unfold retry_count POLL_INTERVAL
    omega

/-- C5 witness: with `timeout = 30` a never-succeeding wait performs exactly
6 refresh cycles and times out. -/
theorem wait_for_retry_budget_witness :
    (wait_for ⟨"notebook", "new"⟩ "running" 30
        (fun _ => RefreshEvent.ok ⟨"notebook", "waiting"⟩)).result =
      WaitResult.timeoutError "running" ∧
    (wait_for ⟨"notebook", "new"⟩ "running" 30
        (fun _ => RefreshEvent.ok ⟨"notebook", "waiting"⟩)).refreshes = 6 := by
  have h := wait_for_retry_budget ⟨"notebook", "new"⟩ "running" 30
    (fun _ => RefreshEvent.ok ⟨"notebook", "waiting"⟩) (by decide) (by decide)
    (fun i => ⟨⟨"notebook", "waiting"⟩, rfl, by decide, by decide⟩)
  exact ⟨h.1, h.2.1.trans (by decide)⟩

/-- C2: per requested dataset entry, resolution follows exactly the
precedence written in the spec (an `id` key maps to `dataset_uuid`/`type`
with no catalog lookup; else `dataset_uuid` passes through unchanged with no
catalog lookup; else `name` with type `existing`/`public` resolves by first
name-and-provider match in the corresponding catalog, failing with a
specification error on field `datasets` when nothing matches; else a `name`
with another type value, or an entry with none of the keys, fails with a
specification error).  Stated as: the source resolver coincides with the
spec-side resolver, and on the `id`/`dataset_uuid` branches its result does
not depend on the catalogs at all. -/
theorem clean_dataset_matches_spec (entry : PyDict) (provider : String)
    (mine pub : List CatalogDataset) :
    _clean_dataset entry provider mine pub =
      resolve_dataset_spec entry provider mine pub ∧
    ((entry.hasKey "id" = true ∨ entry.hasKey "dataset_uuid" = true) →
      ∀ mine2 pub2, _clean_dataset entry provider mine pub =
        _clean_dataset entry provider mine2 pub2) := by
  constructor
  · rfl
  · intro h mine2 pub2
    by_cases hid : entry.hasKey "id" = true
    · unfold _clean_dataset
      rw [if_pos hid, if_pos hid]
    · have hdu : entry.hasKey "dataset_uuid" = true := by
        rcases h with h | h
        · exact absurd h hid
        · exact h
      unfold _clean_dataset
      rw [if_neg hid, if_neg hid, if_pos hdu, if_pos hdu]

/-- C2 witness: an entry carrying an `id` key resolves identically whatever
the catalogs contain. -/
theorem clean_dataset_matches_spec_witness :
    _clean_dataset [("id", PyObj.str "d-1"), ("type", PyObj.str "existing")]
        "gcp" [] [] =
      _clean_dataset [("id", PyObj.str "d-1"), ("type", PyObj.str "existing")]
        "gcp" [⟨"u-9", "CIFAR-10", "gcp"⟩] [⟨"u-7", "ImageNet", "aws"⟩] :=
  (clean_dataset_matches_spec
      [("id", PyObj.str "d-1"), ("type", PyObj.str "existing")] "gcp" [] []).2
    (Or.inl rfl) [⟨"u-9", "CIFAR-10", "gcp"⟩] [⟨"u-7", "ImageNet", "aws"⟩]

/-- C7: an entry of the creation config survives into the payload exactly
when its value is truthy, or its key is `worker_commands` or `model` and
`source_job_uuid` is falsy — so every falsy field is dropped except
`worker_commands` and `model`, which are kept even when falsy unless the job
is copy-derived (`source_job_uuid` truthy), in which case they too are
dropped when falsy. -/
theorem create_payload_filter (name type_ resources worker_count
    worker_commands environment data model vpn source_job_uuid : PyObj)
    (e : String × PyObj) :
    e ∈ build_payload (mk_config name type_ resources worker_count
        worker_commands environment data model vpn source_job_uuid)
        source_job_uuid ↔
      e ∈ mk_config name type_ resources worker_count worker_commands
          environment data model vpn source_job_uuid ∧
        (e.2.truthy = true ∨
          ((e.1 = "worker_commands" ∨ e.1 = "model") ∧
            source_job_uuid.truthy = false)) := by
  unfold build_payload
  rw [List.mem_filter]
  simp [Bool.or_eq_true, Bool.and_eq_true, beq_iff_eq, Bool.not_eq_true']

/-- C8: `copy` on a job whose raw type is neither `interactive` nor
`notebook` (canonical type not notebook, e.g. `training`) fails with a
specification error naming the field `job` — the embedding returns before
any create call is issued — while on a notebook job it builds a creation
request whose `gpu_type`, `gpu_count` and `disk_size` fall back to the
resource spec of the source job when no override is supplied, and whose
`source_job_uuid` is the id of the source job. -/
theorem copy_contract (jobId : String) (res : JobResources) (name : String)
    (kw : CopyArgs) (h1 : kw.gpu_type = PyObj.none)
    (h2 : kw.gpu_count = PyObj.none) (h3 : kw.disk_size = PyObj.none) :
    (∀ tp, tp ≠ "interactive" → tp ≠ "notebook" →
      Job.copy tp jobId res name kw =
        .error (.specificationError "job" "Only notebook job types can be copied")) ∧
    Job.copy "notebook" jobId res name kw =
      .ok { name := name
            type_ := pyOr kw.type_ (.str "notebook")
            gpu_type := res.gpu_type_id
            gpu_count := res.gpu_count
            disk_size := res.disk_size
            worker_count := kw.worker_count
            worker_commands := kw.worker_commands
            environment := kw.environment
            data := kw.data
            vpn := kw.vpn
            source_job_uuid := jobId } := by
  constructor
  · intro tp hti htn
    unfold Job.copy
    rw [if_neg (by rintro (h | h) <;> [exact hti h; exact htn h])]
  · unfold Job.copy
    rw [if_pos (Or.inr rfl)]
    rw [h1, h2, h3]
    rfl

/-- C8 witness: copying a `training` job fails on field `job`; copying a
`notebook` job with no resource overrides reuses the source resource spec
and records the source id. -/
theorem copy_contract_witness :
    Job.copy "training" "job-42"
        ⟨PyObj.str "gt-1", PyObj.num 2, PyObj.num 10⟩ "clone"
        ⟨PyObj.none, PyObj.none, PyObj.none, PyObj.none, PyObj.none,
         PyObj.none, PyObj.none, PyObj.none, PyObj.none⟩ =
      .error (.specificationError "job" "Only notebook job types can be copied") ∧
    Job.copy "notebook" "job-42"
        ⟨PyObj.str "gt-1", PyObj.num 2, PyObj.num 10⟩ "clone"
        ⟨PyObj.none, PyObj.none, PyObj.none, PyObj.none, PyObj.none,
         PyObj.none, PyObj.none, PyObj.none, PyObj.none⟩ =
      .ok { name := "clone"
            type_ := pyOr PyObj.none (.str "notebook")
            gpu_type := PyObj.str "gt-1"
            gpu_count := PyObj.num 2
            disk_size := PyObj.num 10
            worker_count := PyObj.none
            worker_commands := PyObj.none
            environment := PyObj.none
            data := PyObj.none
            vpn := PyObj.none
            source_job_uuid := "job-42" } := by
  have h := copy_contract "job-42" ⟨PyObj.str "gt-1", PyObj.num 2, PyObj.num 10⟩
    "clone" ⟨PyObj.none, PyObj.none, PyObj.none, PyObj.none, PyObj.none,
      PyObj.none, PyObj.none, PyObj.none, PyObj.none⟩ rfl rfl rfl
  exact ⟨h.1 "training" (by decide) (by decide), h.2⟩

/-- A stream id that belongs to no worker resolves to no worker number. -/
lemma worker_number_from_not_mem (stream : String) :
    ∀ (ws : List WorkerRef) (start : Nat),
      stream ∉ ws.map WorkerRef.job_worker_uuid →
      worker_number_from stream start ws = Option.none
  | [], _, _ => rfl
  | w :: ws, start, h => by
      have hh : w.job_worker_uuid ≠ stream := by
        intro he
        exact h (by simp [he])
      have ht : stream ∉ ws.map WorkerRef.job_worker_uuid := by
        intro hm
        exact h (by simp [hm])
      unfold worker_number_from
      rw [worker_number_from_not_mem stream ws (start + 1) ht]
      simp [hh]

/-- With pairwise-distinct worker uuids, the uuid of the worker at position
`i` resolves to number `start + i + 1`. -/
lemma worker_number_from_get (stream : String) :
    ∀ (ws : List WorkerRef) (i start : Nat) (h : i < ws.length),
      (ws.map WorkerRef.job_worker_uuid).Nodup →
      (ws.get ⟨i, h⟩).job_worker_uuid = stream →
      worker_number_from stream start ws = some (start + i + 1)
  | [], i, _, h, _, _ => absurd h (by simp)
  | w :: ws, 0, start, h, hnd, hget => by
      have hget2 : w.job_worker_uuid = stream := hget
      have hnotin : w.job_worker_uuid ∉ ws.map WorkerRef.job_worker_uuid :=
        (List.nodup_cons.mp (by simpa using hnd)).1
      have hne : stream ∉ ws.map WorkerRef.job_worker_uuid := hget2 ▸ hnotin
      unfold worker_number_from
      rw [worker_number_from_not_mem stream ws (start + 1) hne]
      simp [hget2]
  | w :: ws, i + 1, start, h, hnd, hget => by
      have ht : worker_number_from stream (start + 1) ws =
          some ((start + 1) + i + 1) :=
        worker_number_from_get stream ws i (start + 1)
          (Nat.lt_of_succ_lt_succ h)
          ((List.nodup_cons.mp (by simpa using hnd)).2) hget
      unfold worker_number_from
      rw [ht]
      dsimp only
      congr 1
      omega

/-- C9: a message of kind `subscription` is augmented with `worker_number`
equal to the 1-based position of the worker owning its stream in the worker list
captured at attach time, then delivered to the caller-supplied handler when
one was given, or rendered with the worker prefix exactly when there is more
than one worker (so the prefix is omitted when there is exactly one); a
message of any other kind is ignored. -/
theorem attach_msg_handler (workers : List WorkerRef) (m : SubMsg) (i : Nat)
    (hi : i < workers.length)
    (hnd : (workers.map WorkerRef.job_worker_uuid).Nodup)
    (hs : (workers.get ⟨i, hi⟩).job_worker_uuid = m.stream)
    (ht : m.type_ = "subscription") :
    worker_number_of workers m.stream = some (i + 1) ∧
    handle_msg workers true m = .delivered (some (i + 1)) m ∧
    handle_msg workers false m =
      (if workers.length > 1 then MsgAction.printedWithWorker (some (i + 1)) m.msg
       else MsgAction.printedPlain m.msg) ∧
    (∀ (m2 : SubMsg) (hh : Bool), m2.type_ ≠ "subscription" →
      handle_msg workers hh m2 = .ignored) := by
  have hw : worker_number_of workers m.stream = some (i + 1) := by
    have := worker_number_from_get m.stream workers i 0 hi hnd hs
    simpa [worker_number_of] using this
  refine ⟨hw, ?_, ?_, ?_⟩
  · simp [handle_msg, ht, hw]
  · simp [handle_msg, ht, hw]
  · intro m2 hh hm2
    simp [handle_msg, hm2]

/-- C9 witness: with workers `[w1, w2]`, a subscription message on the stream of `w2` is augmented with `worker_number = 2`, and with no caller handler it
is rendered with the worker prefix (two workers). -/
theorem attach_msg_handler_witness :
    worker_number_of [⟨"w1"⟩, ⟨"w2"⟩] "w2" = some 2 ∧
    handle_msg [⟨"w1"⟩, ⟨"w2"⟩] true ⟨"subscription", "w2", "hello"⟩ =
      .delivered (some 2) ⟨"subscription", "w2", "hello"⟩ ∧
    handle_msg [⟨"w1"⟩, ⟨"w2"⟩] false ⟨"subscription", "w2", "hello"⟩ =
      (if ([⟨"w1"⟩, ⟨"w2"⟩] : List WorkerRef).length > 1
       then MsgAction.printedWithWorker (some 2) "hello"
       else MsgAction.printedPlain "hello") := by
  have h := attach_msg_handler [⟨"w1"⟩, ⟨"w2"⟩] ⟨"subscription", "w2", "hello"⟩ 1
    (by decide) (by decide) rfl rfl
  exact ⟨h.1, h.2.1, h.2.2.1⟩

/-- C10 (implicit): `Jobs.create` guards dataset resolution only on the
truthiness of the whole `data` argument, so a non-empty `data` dict without
a `datasets` key makes resolution iterate `None` and fail with a `TypeError`
(not a `SpecificationError`) before the remote write, while the `datasets`
lookup is only skipped safely when `data` itself is falsy (empty or absent). -/
theorem create_data_guard (provider : String)
    (mine pub : List CatalogDataset) :
    (∀ entries : PyDict, entries ≠ [] → entries.hasKey "datasets" = false →
      create_data_step (.dict entries) provider mine pub =
        .error (.typeError "object is not iterable")) ∧
    (∀ data : PyObj, data.truthy = false →
      create_data_step data provider mine pub = .ok data) := by
  constructor
  · intro entries hne hkey
    have hget : PyDict.get entries "datasets" = PyObj.none := by
      have hk : entries.any (fun e => e.1 == "datasets") = false := hkey
      have hall : ∀ x ∈ entries, ¬(x.1 == "datasets") = true :=
        List.any_eq_false.mp hk
      have hfind : entries.find? (fun e => e.1 == "datasets") = Option.none :=
        List.find?_eq_none.mpr hall
      unfold PyDict.get
      rw [hfind]
    have htr : PyObj.truthy (.dict entries) = true := by
      cases entries with
      | nil => exact absurd rfl hne
      | cons a l => rfl
    unfold create_data_step
    rw [if_pos htr]
    dsimp only
    rw [hget]
    rfl
  · intro data hdata
    unfold create_data_step
    rw [if_neg (by simp [hdata])]

/-- C10 witness: `data` holding only an output field fails with a
`TypeError`; an empty (falsy) `data` dict skips resolution untouched. -/
theorem create_data_guard_witness :
    create_data_step (.dict [("output_uri", PyObj.str "s3://bucket")])
        "gcp" [] [] = .error (.typeError "object is not iterable") ∧
    create_data_step (.dict []) "gcp" [] [] = .ok (.dict []) := by
  have h := create_data_guard "gcp" [] []
  exact ⟨h.1 [("output_uri", PyObj.str "s3://bucket")]
      (List.cons_ne_nil _ _) rfl,
    h.2 (.dict []) rfl⟩

end TrainML
